import Mathlib

/-
Verification development for the ai-patient-sim backend (app.py).

The embedding models the dynamic (Python/JSON) values the app manipulates
as an inductive type `PyVal`, and translates the helper functions and the
route handlers of app.py into Lean functions.  Fallible Python operations
(dictionary indexing, list indexing, `str.join`, JSON decoding) are modelled
with `Except String`.  The two outbound LLM calls (profile generation and
the conversational turn) and the JSON decoder `json.loads` are external
collaborators; they enter the model as explicit parameters:
`loads : String -> Except String PyVal` for `json.loads`, an
`Except String String` for the text produced by each LLM invocation.
The in-process RAM session store (the fallback store implemented in app.py
itself) is modelled; MongoDB is an external service and is not modelled.
-/

namespace MedSim

/-- Dynamic values: the subset of Python values the app manipulates
(JSON values decoded by `json.loads` plus the literals in app.py). -/
inductive PyVal where
  | none
  | bool (b : Bool)
  | int (n : Int)
  | str (s : String)
  | list (xs : List PyVal)
  | dict (xs : List (String × PyVal))

/-- First-match lookup in an association list (Python dict access). -/
def lookupA : List (String × PyVal) → String → Option PyVal
  | [], _ => Option.none
  | (k, v) :: rest, key => if k = key then some v else lookupA rest key

/-- Replace the value of a key in place, or append the binding
(Python dict item assignment). -/
def setA : List (String × PyVal) → String → PyVal → List (String × PyVal)
  | [], key, v => [(key, v)]
  | (k, w) :: rest, key, v =>
      if k = key then (k, v) :: rest else (k, w) :: setA rest key v

/-- Python `d[k]` on a value: KeyError when the key is absent, TypeError
when the value is not a dict. -/
def pyIndex : PyVal → String → Except String PyVal
  | .dict xs, key =>
      match lookupA xs key with
      | some v => .ok v
      | Option.none => .error ("KeyError: " ++ key)
  | _, _ => .error "TypeError: value is not subscriptable by a string key"

/-- Python `d.get(k, default)`: the default when the key is absent;
AttributeError when the value is not a dict. -/
def pyGetD : PyVal → String → PyVal → Except String PyVal
  | .dict xs, key, dflt => .ok ((lookupA xs key).getD dflt)
  | _, _, _ => .error "AttributeError: value has no attribute get"

/-- Python `d.get(k)` (default `None`). -/
def pyGet (v : PyVal) (key : String) : Except String PyVal :=
  pyGetD v key .none

/-- Python `d[k] = v`: TypeError when the value is not a dict. -/
def pySetItem : PyVal → String → PyVal → Except String PyVal
  | .dict xs, key, v => .ok (.dict (setA xs key v))
  | _, _, _ => .error "TypeError: value does not support item assignment"

/-- Python `v[0]`: first element of a list (IndexError when empty),
first character of a string, TypeError otherwise. -/
def pyItem0 : PyVal → Except String PyVal
  | .list (x :: _) => .ok x
  | .list [] => .error "IndexError: list index out of range"
  | .str s =>
      match s.data with
      | [] => .error "IndexError: string index out of range"
      | c :: _ => .ok (.str (String.mk [c]))
  | _ => .error "TypeError: value is not indexable"

/-- Python `v[1:]` on sequences. -/
def pySlice1 : PyVal → Except String PyVal
  | .list xs => .ok (.list (xs.drop 1))
  | .str s => .ok (.str (String.mk (s.data.drop 1)))
  | _ => .error "TypeError: value is not sliceable"

/-- All elements of a Python list must be strings for `str.join`. -/
def allStrs : List PyVal → Except String (List String)
  | [] => .ok []
  | .str s :: rest => (allStrs rest).map (fun l => s :: l)
  | _ :: _ => .error "TypeError: sequence item is not a string"

/-- Python `sep.join(v)`: joins a list of strings, the characters of a
string, or the keys of a dict; TypeError otherwise. -/
def pyJoin (sep : String) : PyVal → Except String String
  | .list xs => (allStrs xs).map (fun l => String.intercalate sep l)
  | .str s => .ok (String.intercalate sep (s.data.map (fun c => String.mk [c])))
  | .dict xs => .ok (String.intercalate sep (xs.map (fun p => p.1)))
  | _ => .error "TypeError: value is not iterable"

mutual

/-- Python `str(v)` as used by f-string interpolation. -/
def pyFormat : PyVal → String
  | .none => "None"
  | .bool true => "True"
  | .bool false => "False"
  | .int n => toString n
  | .str s => s
  | .list xs => "[" ++ pyReprSeq xs ++ "]"
  | .dict xs => "\x7b" ++ pyReprPairs xs ++ "\x7d"

/-- Python `repr(v)` (used for elements of containers). -/
def pyRepr : PyVal → String
  | .none => "None"
  | .bool true => "True"
  | .bool false => "False"
  | .int n => toString n
  | .str s => "\x27" ++ s ++ "\x27"
  | .list xs => "[" ++ pyReprSeq xs ++ "]"
  | .dict xs => "\x7b" ++ pyReprPairs xs ++ "\x7d"

/-- Comma-separated reprs of the elements of a list. -/
def pyReprSeq : List PyVal → String
  | [] => ""
  | [v] => pyRepr v
  | v :: rest => pyRepr v ++ ", " ++ pyReprSeq rest

/-- Comma-separated `key: value` reprs of the entries of a dict. -/
def pyReprPairs : List (String × PyVal) → String
  | [] => ""
  | [(k, v)] => "\x27" ++ k ++ "\x27: " ++ pyRepr v
  | (k, v) :: rest => "\x27" ++ k ++ "\x27: " ++ pyRepr v ++ ", " ++ pyReprPairs rest

end

/-! ### clean_json_output (app.py lines 144-150) -/

/-- The backtick character. -/
def btick : Char := Char.ofNat 96

/-- The opening curly bracket character. -/
def obrace : Char := Char.ofNat 123

/-- The closing curly bracket character. -/
def cbrace : Char := Char.ofNat 125

/-- Python regex `\s` (ASCII whitespace classes). -/
def pyIsSpace (c : Char) : Bool :=
  c = ' ' || c = '\t' || c = '\n' || c = '\r' || c = '\x0b' || c = '\x0c'

/-- One left-to-right pass of the `re.sub` fence-stripping substitution
over the characters: the pattern is three backticks followed by `json` and
trailing whitespace, or three bare backticks, replaced by nothing; the
alternatives are tried in this order at each position, as `re.sub` does.
The fuel argument only makes the recursion structural; every recursive call
consumes at least one character, so `length + 1` fuel is never
exhausted. -/
def stripFencesFuel : Nat → List Char → List Char
  | 0, _ => []
  | n + 1, l =>
      match l with
      | a :: b :: c :: d :: e :: f :: g :: rest =>
          if a = btick ∧ b = btick ∧ c = btick ∧ d = 'j' ∧ e = 's' ∧ f = 'o' ∧ g = 'n' then
            stripFencesFuel n (rest.dropWhile pyIsSpace)
          else if a = btick ∧ b = btick ∧ c = btick then
            stripFencesFuel n (d :: e :: f :: g :: rest)
          else
            a :: stripFencesFuel n (b :: c :: d :: e :: f :: g :: rest)
      | a :: b :: c :: rest =>
          if a = btick ∧ b = btick ∧ c = btick then
            stripFencesFuel n rest
          else
            a :: stripFencesFuel n (b :: c :: rest)
      | a :: rest => a :: stripFencesFuel n rest
      | [] => []

/-- Remove every markdown code-fence marker, as the `re.sub` call does. -/
def stripFences (l : List Char) : List Char :=
  stripFencesFuel (l.length + 1) l

/-- Python `str.strip()`: drop whitespace from both ends. -/
def pyStrip (l : List Char) : List Char :=
  ((l.dropWhile pyIsSpace).reverse.dropWhile pyIsSpace).reverse

/-- Python `str.find(c)`: index of the first occurrence, `-1` if absent. -/
def find_char : List Char → Char → Int
  | [], _ => -1
  | a :: rest, c =>
      if a = c then 0
      else
        let r := find_char rest c
        if r = -1 then -1 else r + 1

/-- Python `str.rfind(c)`: index of the last occurrence, `-1` if absent. -/
def rfind_char : List Char → Char → Int
  | [], _ => -1
  | a :: rest, c =>
      let r := rfind_char rest c
      if r = -1 then (if a = c then 0 else -1) else r + 1

/-- Python `s[a:b]` for nonnegative bounds (the only case app.py uses). -/
def pyslice (l : List Char) (a b : Int) : List Char :=
  (l.drop a.toNat).take (b.toNat - a.toNat)

/-- The cleaned text of `clean_json_output`: fence markers removed,
then stripped. -/
def cleanedText (text : String) : List Char :=
  pyStrip (stripFences text.data)

/-- app.py `clean_json_output`: strip fences, locate the first opening and
the last closing curly bracket, and decode the slice between them with
`json.loads` (the parameter `loads`); `end_idx` is `rfind + 1`, so the
`end_idx != -1` test can never fail, exactly as in the source. -/
def clean_json_output (loads : String → Except String PyVal) (text : String) :
    Except String PyVal :=
  let t := cleanedText text
  let start_idx : Int := find_char t obrace
  let end_idx : Int := rfind_char t cbrace + 1
  if start_idx ≠ -1 ∧ end_idx ≠ -1 then
    loads (String.mk (pyslice t start_idx end_idx))
  else
    .ok (.dict [])

/-! ### create_patient_profile (app.py lines 155-191) -/

/-- The hardcoded fallback profile returned when profile generation raises. -/
def default_profile : PyVal :=
  .dict
    [("name", .str "Alex"), ("age", .int 30), ("sex", .str "Male"),
     ("disease", .str "Migraine"),
     ("visible_symptoms", .list [.str "Headache", .str "Light sensitivity"]),
     ("secret_symptom", .str "Nausea"),
     ("pain_description", .str "Throbbing"),
     ("treatment", .list [.str "Triptans"])]

/-- The body of the `try` block of `create_patient_profile`: decode the
model response and wrap a single-string `visible_symptoms` into a
one-element list. -/
def profile_attempt (loads : String → Except String PyVal)
    (invokeResult : Except String String) : Except String PyVal := do
  let response ← invokeResult
  let profile ← clean_json_output loads response
  let vs ← pyGet profile "visible_symptoms"
  match vs with
  | .str s => pySetItem profile "visible_symptoms" (.list [.str s])
  | _ => pure profile

/-- app.py `create_patient_profile`: any exception inside the `try` block
(model invocation failure, JSON decode failure, attribute error) yields the
hardcoded fallback profile; otherwise the decoded profile is returned as is
after the single-string normalization, with no validation of its fields. -/
def create_patient_profile (loads : String → Except String PyVal)
    (invokeResult : Except String String) : PyVal :=
  match profile_attempt loads invokeResult with
  | .ok p => p
  | .error _ => default_profile

/-! ### build_system_prompt (app.py lines 193-222) -/

/-- app.py `build_system_prompt`: the f-string rendering of the persona
instructions.  Every interpolated expression that can raise in Python
(missing dict key, empty symptom list, join over non-strings) is an
`Except.error` here; the interpolations are evaluated left to right as in
the Python f-string. -/
def build_system_prompt (p : PyVal) : Except String String := do
  let name ← pyIndex p "name"
  let age ← pyIndex p "age"
  let sex ← pyIndex p "sex"
  let disease ← pyIndex p "disease"
  let vs1 ← pyIndex p "visible_symptoms"
  let mainSym ← pyItem0 vs1
  let vs2 ← pyIndex p "visible_symptoms"
  let restSyms ← pySlice1 vs2
  let others ← pyJoin ", " restSyms
  let secret ← pyIndex p "secret_symptom"
  let pain ← pyGetD p "pain_description" (.str "bad")
  let treatment ← pyIndex p "treatment"
  let cure ← pyJoin ", " treatment
  pure
    ("\n    ROLE: You are " ++ pyFormat name ++ ", " ++ pyFormat age ++
     " years old, " ++ pyFormat sex ++
     ".\n    CONTEXT: You are messaging a doctor on a chat app.\n    \n    === YOUR CONDITION ===\n    Disease: " ++
     pyFormat disease ++ " (NEVER reveal this name).\n    Main Symptom: " ++
     pyFormat mainSym ++ ".\n    Other Symptoms: " ++ others ++
     ".\n    Secret: " ++ pyFormat secret ++
     " (Only say if explicitly asked).\n    Pain feels like: " ++
     pyFormat pain ++
     ".\n    \n    === THE CURE ===\n    The ONLY thing that helps is: " ++
     cure ++
     ".\n    IF the doctor suggests this:\n    1. Say: \"Okay, I\x27ll try that.\" or \"Thanks doc.\"\n    2. STOP complaining.\n    \n    === STRICT BEHAVIOR RULES (CRITICAL) ===\n    1. NO ACTING: Do NOT use asterisks (*sigh*, *looks down*). Do NOT describe your physical actions. \n    2. TEXTING STYLE: Type like a normal person texting. Short sentences. Casual.\n    3. ONE THING AT A TIME: Do NOT list all your symptoms at once.\n       - BAD: \"Hi, I have a headache, nausea, and my eye hurts.\"\n       - GOOD: \"Hi doc, I\x27ve had this really bad headache all day.\"\n    4. WAIT FOR QUESTIONS: Only reveal secondary symptoms if the doctor asks \"Anything else?\" or \"Does it hurt anywhere else?\"\n    5. UNKNOWN: If asked about history not in your profile, say \"No\" or \"I don\x27t think so.\"\n    \n    Start now. Wait for the doctor to speak.\n    ")

/-- The validated record shape the spec calls `PatientCase`
(section 3 of the spec), with the optional pain description. -/
structure PatientCase where
  name : String
  age : Int
  sex : String
  disease : String
  visible_symptoms : List String
  secret_symptom : String
  pain_description : Option String
  treatment : List String

/-- The Python dict carrying a `PatientCase` (the JSON shape the generation
prompt requests); the `pain_description` key is present only when the
optional field is. -/
def PatientCase.toPy (c : PatientCase) : PyVal :=
  .dict
    ([("name", .str c.name), ("age", .int c.age), ("sex", .str c.sex),
      ("disease", .str c.disease),
      ("visible_symptoms", .list (c.visible_symptoms.map PyVal.str)),
      ("secret_symptom", .str c.secret_symptom)] ++
     (match c.pain_description with
      | some d => [("pain_description", PyVal.str d)]
      | Option.none => []) ++
     [("treatment", .list (c.treatment.map PyVal.str))])

/-! ### Chat logic (app.py lines 227-332) -/

/-- Role-tagged messages handed to the conversational agent
(`SystemMessage` / `HumanMessage` / model replies). -/
inductive Msg where
  | system (content : String)
  | human (content : String)
  | ai (content : String)
deriving DecidableEq

/-- The `.content` attribute of a message. -/
def Msg.content : Msg → String
  | .system s => s
  | .human s => s
  | .ai s => s

/-- app.py `bot_response_node`: invoke the low-temperature model on the
state; on any exception substitute a literal `HumanMessage("...")`.
`llmResult` is the outcome of the external `llm.invoke` call. -/
def bot_response_node (llmResult : Except String String) : Msg :=
  match llmResult with
  | .ok reply => .ai reply
  | .error _ => .human "..."

/-- One stored session of the RAM store (`ram_db["sessions"]` entries). -/
structure Session where
  thread_id : String
  user_id : String
  patient_name : PyVal
  disease : PyVal
  patient_data : PyVal
  messages : List (String × String)
  created_at : Nat

/-- The session lookup loop of the `/chat` route (first match wins). -/
def find_session : List Session → String → Option Session
  | [], _ => Option.none
  | s :: rest, tid => if s.thread_id = tid then some s else find_session rest tid

/-- The history-save loop of the `/chat` route: extend the messages of the
first session with the given thread id (the loop `break`s after one hit). -/
def appendMessages : List Session → String → List (String × String) → List Session
  | [], _, _ => []
  | s :: rest, tid, ms =>
      if s.thread_id = tid then { s with messages := s.messages ++ ms } :: rest
      else s :: appendMessages rest tid ms

/-- Number of stored sessions carrying a given thread id. -/
def countTid (l : List Session) (tid : String) : Nat :=
  (l.filter (fun s => s.thread_id = tid)).length

/-- Construction of the `new_session` dict of the `/chat` route: reading
the `name` and `disease` entries of the profile can raise (and does so
before the store insert, exactly as in the source). -/
def new_session (tid uid : String) (profile : PyVal) (now : Nat) :
    Except String Session := do
  let n ← pyIndex profile "name"
  let d ← pyIndex profile "disease"
  pure ⟨tid, uid, n, d, profile, [], now⟩

/-- The response of the `/chat` route, or an exception that escaped the
handler (which Flask turns into a generic 500 response). -/
inductive ChatResp where
  | badRequest
  | ok (response : String) (name age sex : PyVal)
  | internalError
  | unhandled (e : String)

/-- HTTP status of each outcome (Flask maps an escaped exception to 500). -/
def statusCode : ChatResp → Nat
  | .badRequest => 400
  | .ok _ _ _ _ => 200
  | .internalError => 500
  | .unhandled _ => 500

/-- Result of one `/chat` request: the response, the session store after
the request, and the message sequence passed to `agent.invoke` for this
turn (`Option.none` when the agent was never invoked). -/
structure ChatOut where
  resp : ChatResp
  db : List Session
  modelInputs : Option (List Msg)

/-- The JSON body of a `/chat` request; `data.get(k)` yields `Option`. -/
structure ChatReq where
  user_id : Option String
  thread_id : Option String
  message : Option String

/-- Python truthiness of `data.get(k)`: `None` and `""` are falsy. -/
def truthy : Option String → Bool
  | Option.none => false
  | some s => s ≠ ""

/-- The `try` block of the `/chat` route: run the agent (whose single node
is `bot_response_node`), append the doctor/patient pair to the stored
transcript, and assemble the response from `current_profile` (KeyErrors in
the response assembly are caught by the `except` and become a 500). -/
def runTurn (llmResult : Except String String) (db : List Session)
    (tid msg : String) (current_profile : PyVal) (inputs : List Msg) : ChatOut :=
  let bot_text := (bot_response_node llmResult).content
  let new_messages := [("Doctor", msg), ("Patient", bot_text)]
  let db2 := appendMessages db tid new_messages
  match pyIndex current_profile "name", pyIndex current_profile "age",
        pyIndex current_profile "sex" with
  | .ok n, .ok a, .ok sx => ⟨.ok bot_text n a sx, db2, some inputs⟩
  | .error _, _, _ => ⟨.internalError, db2, some inputs⟩
  | _, .error _, _ => ⟨.internalError, db2, some inputs⟩
  | _, _, .error _ => ⟨.internalError, db2, some inputs⟩

/-- app.py `/chat` route (RAM store): validate the body, look the session
up by thread id, on a miss generate a profile and insert a new session,
build the model input (persona instructions only on creation), run the
turn, append the transcript pair, and answer with the reply plus the
display fields.  `loads` and `invokeResult` feed profile generation,
`llmResult` is the conversational model call of this turn, `now` the
creation timestamp. -/
def chat (loads : String → Except String PyVal)
    (invokeResult llmResult : Except String String) (now : Nat)
    (db : List Session) (req : ChatReq) : ChatOut :=
  if truthy req.user_id && truthy req.thread_id && truthy req.message then
    let uid := req.user_id.getD ""
    let tid := req.thread_id.getD ""
    let msg := req.message.getD ""
    match find_session db tid with
    | some session =>
        runTurn llmResult db tid msg session.patient_data [Msg.human msg]
    | Option.none =>
        let profile := create_patient_profile loads invokeResult
        match new_session tid uid profile now with
        | .error e => ⟨.unhandled e, db, Option.none⟩
        | .ok s =>
            let db1 := db ++ [s]
            match build_system_prompt profile with
            | .error e => ⟨.unhandled e, db1, Option.none⟩
            | .ok instr =>
                runTurn llmResult db1 tid msg profile
                  [Msg.system instr, Msg.human msg]
  else
    ⟨.badRequest, db, Option.none⟩

/-! ### Session listing (app.py lines 335-354, RAM branch) -/

/-- One entry of the `/sessions/<user_id>` response. -/
structure SessSummary where
  thread_id : String
  patient : PyVal
  disease : PyVal

/-- The collection loop of `get_sessions`: walk the (already reversed)
session list and keep the sessions owned by the user. -/
def collectOwned (uid : String) : List Session → List SessSummary
  | [] => []
  | s :: rest =>
      if s.user_id = uid then
        ⟨s.thread_id, s.patient_name, s.disease⟩ :: collectOwned uid rest
      else collectOwned uid rest

/-- app.py `get_sessions` (RAM branch): iterate `reversed(sessions)` and
collect the entries owned by `user_id`; the store is only read. -/
def get_sessions (db : List Session) (user_id : String) :
    List SessSummary × List Session :=
  (collectOwned user_id db.reverse, db)

/-! ### Concrete `json.loads` fragments used by witnesses and
counterexamples.  Each is the restriction of the real decoder to a single
input string, mapping it to the JSON value that string denotes. -/

/-- A decoder that rejects every input (used where decoding is irrelevant
or must fail). -/
def loadsFail : String → Except String PyVal :=
  fun _ => .error "Expecting value: line 1 column 1 (char 0)"

/-- Decodes the single object `\x7b"visible_symptoms": 42\x7d`. -/
def loadsNum : String → Except String PyVal :=
  fun t =>
    if t = "\x7b\"visible_symptoms\": 42\x7d" then
      .ok (.dict [("visible_symptoms", .int 42)])
    else .error "Expecting value: line 1 column 1 (char 0)"

/-- Decodes the single object `\x7b"name": "Bob", "disease": "Flu"\x7d`. -/
def loadsNoAge : String → Except String PyVal :=
  fun t =>
    if t = "\x7b\"name\": \"Bob\", \"disease\": \"Flu\"\x7d" then
      .ok (.dict [("name", .str "Bob"), ("disease", .str "Flu")])
    else .error "Expecting value: line 1 column 1 (char 0)"

/-- Decodes the single object `\x7b"visible_symptoms": "Cough"\x7d`. -/
def loadsSingleSym : String → Except String PyVal :=
  fun t =>
    if t = "\x7b\"visible_symptoms\": \"Cough\"\x7d" then
      .ok (.dict [("visible_symptoms", .str "Cough")])
    else .error "Expecting value: line 1 column 1 (char 0)"

/-! ### Helper lemmas -/

@[simp]
theorem except_bind_ok {ε α β : Type} (a : α) (f : α → Except ε β) :
    (Except.ok a >>= f : Except ε β) = f a := rfl

@[simp]
theorem except_bind_error {ε α β : Type} (e : ε) (f : α → Except ε β) :
    (Except.error e >>= f : Except ε β) = Except.error e := rfl

@[simp]
theorem except_pure_eq {ε α : Type} (a : α) :
    (pure a : Except ε α) = Except.ok a := rfl

theorem countTid_append (l₁ l₂ : List Session) (tid : String) :
    countTid (l₁ ++ l₂) tid = countTid l₁ tid + countTid l₂ tid := by
  simp [countTid, List.filter_append]

theorem countTid_singleton_self (s : Session) (tid : String)
    (h : s.thread_id = tid) : countTid [s] tid = 1 := by
  simp [countTid, List.filter, h]

theorem find_session_none_iff (l : List Session) (tid : String) :
    find_session l tid = Option.none ↔ countTid l tid = 0 := by
  induction l with
  | nil => simp [find_session, countTid]
  | cons s rest ih =>
      by_cases h : s.thread_id = tid
      · simp [find_session, countTid, h, List.filter]
      · simp only [find_session, countTid, List.filter] at *
        simp [h, ih]

theorem appendMessages_countTid (l : List Session) (tid tid' : String)
    (ms : List (String × String)) :
    countTid (appendMessages l tid ms) tid' = countTid l tid' := by
  induction l with
  | nil => rfl
  | cons s rest ih =>
      simp only [appendMessages]
      by_cases h : s.thread_id = tid
      · rw [if_pos h]
        simp only [countTid, List.filter]
        by_cases h2 : s.thread_id = tid' <;> simp [h2]
      · rw [if_neg h]
        simp only [countTid, List.filter] at ih ⊢
        by_cases h2 : s.thread_id = tid' <;> simp [h2, ih]

theorem appendMessages_find_session (l : List Session) (tid : String)
    (ms : List (String × String)) :
    find_session (appendMessages l tid ms) tid =
      (find_session l tid).map (fun s => { s with messages := s.messages ++ ms }) := by
  induction l with
  | nil => rfl
  | cons s rest ih =>
      by_cases h : s.thread_id = tid
      · simp [appendMessages, find_session, h]
      · simp [appendMessages, find_session, h, ih]

theorem find_session_append (l₁ l₂ : List Session) (tid : String) :
    find_session (l₁ ++ l₂) tid =
      match find_session l₁ tid with
      | some s => some s
      | Option.none => find_session l₂ tid := by
  induction l₁ with
  | nil => rfl
  | cons s rest ih =>
      by_cases h : s.thread_id = tid
      · simp [find_session, h]
      · simp [find_session, h, ih]

theorem truthy_some_of_ne {s : String} (h : s ≠ "") : truthy (some s) = true := by
  simp [truthy, h]

theorem find_char_ge (l : List Char) (c : Char) : -1 ≤ find_char l c := by
  induction l with
  | nil => simp [find_char]
  | cons a rest ih =>
      simp only [find_char]
      by_cases h : a = c
      · simp [h]
      · simp only [if_neg h]
        by_cases h2 : find_char rest c = -1
        · simp [h2]
        · simp [h2]; omega

theorem find_char_of_not_mem {l : List Char} {c : Char} (h : c ∉ l) :
    find_char l c = -1 := by
  induction l with
  | nil => rfl
  | cons a rest ih =>
      simp only [List.mem_cons, not_or] at h
      have ha : a ≠ c := fun hh => h.1 hh.symm
      simp [find_char, ha, ih h.2]

theorem rfind_char_of_not_mem {l : List Char} {c : Char} (h : c ∉ l) :
    rfind_char l c = -1 := by
  induction l with
  | nil => rfl
  | cons a rest ih =>
      simp only [List.mem_cons, not_or] at h
      have ha : a ≠ c := fun hh => h.1 hh.symm
      simp [rfind_char, ha, ih h.2]

theorem find_char_mem {l : List Char} {c : Char} (h : c ∈ l) :
    ∃ i : Nat, find_char l c = (i : Int) := by
  induction l with
  | nil => simp at h
  | cons a rest ih =>
      by_cases ha : a = c
      · exact ⟨0, by simp [find_char, ha]⟩
      · have hc : c ∈ rest := by
          rcases List.mem_cons.mp h with h1 | h1
          · exact absurd h1.symm ha
          · exact h1
        obtain ⟨i, hi⟩ := ih hc
        refine ⟨i + 1, ?_⟩
        have : find_char rest c ≠ -1 := by rw [hi]; omega
        simp only [find_char, if_neg ha]
        rw [if_neg (by rw [hi]; omega)]
        rw [hi]
        push_cast
        ring

theorem find_char_spec {l : List Char} {c : Char} {i : Nat}
    (h : find_char l c = (i : Int)) :
    ∃ pre post, l = pre ++ c :: post ∧ pre.length = i ∧ c ∉ pre := by
  induction l generalizing i with
  | nil => simp only [find_char] at h; omega
  | cons a rest ih =>
      by_cases ha : a = c
      · have : i = 0 := by simp [find_char, ha] at h; omega
        subst this
        exact ⟨[], rest, by rw [ha]; rfl, rfl, by simp⟩
      · simp only [find_char, if_neg ha] at h
        by_cases h2 : find_char rest c = -1
        · rw [if_pos h2] at h; omega
        · rw [if_neg h2] at h
          have hge := find_char_ge rest c
          obtain ⟨i', rfl⟩ : ∃ i' : Nat, i = i' + 1 := by
            rcases i with _ | i'
            · exfalso; omega
            · exact ⟨i', rfl⟩
          have hr : find_char rest c = (i' : Int) := by push_cast at h ⊢; omega
          obtain ⟨pre, post, heq, hlen, hnot⟩ := ih hr
          refine ⟨a :: pre, post, by simp [heq], by simp [hlen], ?_⟩
          simp only [List.mem_cons, not_or]
          exact ⟨fun hh => ha hh.symm, hnot⟩

theorem rfind_char_ge (l : List Char) (c : Char) : -1 ≤ rfind_char l c := by
  induction l with
  | nil => simp [rfind_char]
  | cons a rest ih =>
      simp only [rfind_char]
      by_cases h2 : rfind_char rest c = -1
      · by_cases ha : a = c <;> simp [h2, ha]
      · simp [h2]; omega

theorem rfind_char_neg_imp {l : List Char} {c : Char}
    (h : rfind_char l c = -1) : c ∉ l := by
  induction l with
  | nil => simp
  | cons a rest ih =>
      simp only [rfind_char] at h
      by_cases h2 : rfind_char rest c = -1
      · rw [if_pos h2] at h
        by_cases ha : a = c
        · rw [if_pos ha] at h; simp at h
        · rw [if_neg ha] at h
          simp only [List.mem_cons, not_or]
          exact ⟨fun hh => ha hh.symm, ih h2⟩
      · rw [if_neg h2] at h
        have := rfind_char_ge rest c
        exfalso; omega

theorem rfind_char_spec {l : List Char} {c : Char} {j : Nat}
    (h : rfind_char l c = (j : Int)) :
    ∃ pre post, l = pre ++ c :: post ∧ pre.length = j ∧ c ∉ post := by
  induction l generalizing j with
  | nil => simp only [rfind_char] at h; omega
  | cons a rest ih =>
      simp only [rfind_char] at h
      by_cases h2 : rfind_char rest c = -1
      · rw [if_pos h2] at h
        by_cases ha : a = c
        · rw [if_pos ha] at h
          have : j = 0 := by omega
          subst this
          exact ⟨[], rest, by rw [ha]; rfl, rfl, rfind_char_neg_imp h2⟩
        · rw [if_neg ha] at h; omega
      · rw [if_neg h2] at h
        have hge := rfind_char_ge rest c
        obtain ⟨j', rfl⟩ : ∃ j' : Nat, j = j' + 1 := by
          rcases j with _ | j'
          · exfalso; omega
          · exact ⟨j', rfl⟩
        have hr : rfind_char rest c = (j' : Int) := by push_cast at h ⊢; omega
        obtain ⟨pre, post, heq, hlen, hnot⟩ := ih hr
        exact ⟨a :: pre, post, by simp [heq], by simp [hlen], hnot⟩

/-- When both curly brackets occur in the cleaned text (first opening one
at index `i`, last closing one at index `j`, `i ≤ j`), `clean_json_output`
hands `json.loads` exactly the bracket-delimited middle segment. -/
theorem clean_json_decomposition (loads : String → Except String PyVal)
    (text : String) {i j : Nat}
    (hi : find_char (cleanedText text) obrace = (i : Int))
    (hj : rfind_char (cleanedText text) cbrace = (j : Int))
    (hij : i ≤ j) :
    ∃ pre mid post, cleanedText text = pre ++ mid ++ post ∧ obrace ∉ pre ∧
      cbrace ∉ post ∧ mid.head? = some obrace ∧ mid.getLast? = some cbrace ∧
      clean_json_output loads text = loads (String.mk mid) := by
  set t := cleanedText text with ht
  obtain ⟨preF, postF, htF, hlenF, hnotF⟩ := find_char_spec hi
  obtain ⟨preR, postR, htR, hlenR, hnotR⟩ := rfind_char_spec hj
  have hdrop : t.drop i = obrace :: postF := by
    rw [htF, ← hlenF]; exact List.drop_left _ _
  have htake : t.take i = preF := by
    rw [htF, ← hlenF]; exact List.take_left _ _
  set mid := (t.drop i).take (j + 1 - i) with hmid
  have hlt : j + 1 ≤ t.length := by
    rw [htR]; simp [hlenR]
  have hmidlen : mid.length = j + 1 - i := by
    rw [hmid, List.length_take, List.length_drop]; omega
  have hdropj : t.drop (j + 1) = postR := by
    have hT : t = (preR ++ [cbrace]) ++ postR := by rw [htR]; simp
    rw [hT, show j + 1 = (preR ++ [cbrace]).length from by simp [hlenR]]
    exact List.drop_left _ _
  have h2 : t.drop i = mid ++ postR := by
    conv_lhs => rw [← List.take_append_drop (j + 1 - i) (t.drop i)]
    rw [← hmid]
    congr 1
    rw [List.drop_drop, show i + (j + 1 - i) = j + 1 from by omega]
    exact hdropj
  have hsplit : t = preF ++ mid ++ postR :=
    calc t = t.take i ++ t.drop i := (List.take_append_drop i t).symm
    _ = preF ++ (mid ++ postR) := by rw [htake, h2]
    _ = preF ++ mid ++ postR := (List.append_assoc _ _ _).symm
  have hhead : mid.head? = some obrace := by
    rw [hmid, hdrop, show j + 1 - i = (j - i) + 1 from by omega]
    simp
  have hne : mid ≠ [] := by
    rw [hmid, hdrop, show j + 1 - i = (j - i) + 1 from by omega]
    simp
  have hmidseg : preF ++ mid = preR ++ [cbrace] := by
    have l1 : t.take (j + 1) = preF ++ mid := by
      have hlen1 : (preF ++ mid).length = j + 1 := by
        simp only [List.length_append, hlenF, hmidlen]; omega
      rw [hsplit, ← hlen1]
      exact List.take_left _ _
    have l2 : t.take (j + 1) = preR ++ [cbrace] := by
      have hT : t = (preR ++ [cbrace]) ++ postR := by rw [htR]; simp
      have hlen2 : (preR ++ [cbrace]).length = j + 1 := by simp [hlenR]
      rw [hT, ← hlen2]
      exact List.take_left _ _
    rw [← l1, l2]
  have hlast : mid.getLast? = some cbrace := by
    have hg := List.getLast?_append_of_ne_nil preF hne
    rw [hmidseg] at hg
    rw [← hg]; simp
  have hslice : pyslice t i ((j : Int) + 1) = mid := by
    rw [hmid]
    simp only [pyslice]
    rw [show ((i : Int)).toNat = i from by omega,
        show ((j : Int) + 1).toNat = j + 1 from by omega]
  have hresult : clean_json_output loads text = loads (String.mk mid) := by
    simp only [clean_json_output, ← ht, hi, hj]
    rw [if_pos ⟨by omega, by omega⟩, hslice]
  exact ⟨preF, mid, postR, hsplit, hnotF, hnotR, hhead, hlast, hresult⟩

/-- When the cleaned text has no opening bracket, `clean_json_output`
returns the empty dict without ever consulting `json.loads`. -/
theorem clean_json_no_open (loads : String → Except String PyVal)
    (text : String) (h : obrace ∉ cleanedText text) :
    clean_json_output loads text = .ok (.dict []) := by
  simp only [clean_json_output, find_char_of_not_mem h]
  rw [if_neg]
  simp

/-- When the cleaned text has an opening but no closing bracket, the
`end_idx != -1` test still passes (`end_idx` is `rfind + 1 = 0`) and the
empty slice is handed to `json.loads`. -/
theorem clean_json_no_close (loads : String → Except String PyVal)
    (text : String) (hmem : obrace ∈ cleanedText text)
    (h : cbrace ∉ cleanedText text) :
    clean_json_output loads text = loads "" := by
  obtain ⟨i, hi⟩ := find_char_mem hmem
  simp only [clean_json_output, hi, rfind_char_of_not_mem h]
  rw [if_pos ⟨by omega, by omega⟩]
  have : pyslice (cleanedText text) i ((-1 : Int) + 1) = [] := by
    simp [pyslice]
  rw [this]

/-- Unfolding of `/chat` for a request whose thread already has a session. -/
theorem chat_existing (loads : String → Except String PyVal)
    (invokeResult llmResult : Except String String) (now : Nat)
    (db : List Session) (uidS tidS msgS : String) (s : Session)
    (hu : uidS ≠ "") (ht : tidS ≠ "") (hm : msgS ≠ "")
    (hfs : find_session db tidS = some s) :
    chat loads invokeResult llmResult now db ⟨some uidS, some tidS, some msgS⟩ =
      runTurn llmResult db tidS msgS s.patient_data [Msg.human msgS] := by
  unfold chat
  simp [truthy_some_of_ne hu, truthy_some_of_ne ht, truthy_some_of_ne hm, hfs]

/-- Unfolding of `/chat` for a fresh thread whose generated profile renders
successfully. -/
theorem chat_fresh (loads : String → Except String PyVal)
    (invokeResult llmResult : Except String String) (now : Nat)
    (db : List Session) (uidS tidS msgS : String) (nv dv : PyVal) (instr : String)
    (hu : uidS ≠ "") (ht : tidS ≠ "") (hm : msgS ≠ "")
    (hfs : find_session db tidS = Option.none)
    (hn : pyIndex (create_patient_profile loads invokeResult) "name" = .ok nv)
    (hd : pyIndex (create_patient_profile loads invokeResult) "disease" = .ok dv)
    (hb : build_system_prompt (create_patient_profile loads invokeResult) = .ok instr) :
    chat loads invokeResult llmResult now db ⟨some uidS, some tidS, some msgS⟩ =
      runTurn llmResult
        (db ++ [⟨tidS, uidS, nv, dv, create_patient_profile loads invokeResult, [], now⟩])
        tidS msgS (create_patient_profile loads invokeResult)
        [Msg.system instr, Msg.human msgS] := by
  unfold chat
  simp [truthy_some_of_ne hu, truthy_some_of_ne ht, truthy_some_of_ne hm, hfs,
    new_session, hn, hd, hb]

/-- Unfolding of `/chat` for a fresh thread whose generated profile has the
`name` and `disease` keys but fails to render: the session is inserted and
then the rendering exception escapes the handler. -/
theorem chat_fresh_render_fail (loads : String → Except String PyVal)
    (invokeResult llmResult : Except String String) (now : Nat)
    (db : List Session) (uidS tidS msgS : String) (nv dv : PyVal) (e : String)
    (hu : uidS ≠ "") (ht : tidS ≠ "") (hm : msgS ≠ "")
    (hfs : find_session db tidS = Option.none)
    (hn : pyIndex (create_patient_profile loads invokeResult) "name" = .ok nv)
    (hd : pyIndex (create_patient_profile loads invokeResult) "disease" = .ok dv)
    (hb : build_system_prompt (create_patient_profile loads invokeResult) = .error e) :
    chat loads invokeResult llmResult now db ⟨some uidS, some tidS, some msgS⟩ =
      ⟨.unhandled e,
       db ++ [⟨tidS, uidS, nv, dv, create_patient_profile loads invokeResult, [], now⟩],
       Option.none⟩ := by
  unfold chat
  simp [truthy_some_of_ne hu, truthy_some_of_ne ht, truthy_some_of_ne hm, hfs,
    new_session, hn, hd, hb]

theorem lookupA_setA_self (xs : List (String × PyVal)) (k : String) (v : PyVal) :
    lookupA (setA xs k v) k = some v := by
  induction xs with
  | nil => simp [setA, lookupA]
  | cons p rest ih =>
      obtain ⟨k', w⟩ := p
      by_cases h : k' = k
      · simp [setA, lookupA, h]
      · simp [setA, lookupA, h, ih]

@[simp]
theorem except_map_ok {ε α β : Type} (f : α → β) (a : α) :
    (Except.map f (Except.ok a) : Except ε β) = Except.ok (f a) := rfl

@[simp]
theorem allStrs_map_str (xs : List String) :
    allStrs (xs.map PyVal.str) = .ok xs := by
  induction xs with
  | nil => rfl
  | cons a rest ih => simp [allStrs, ih]

@[simp]
theorem pyJoin_map_str (sep : String) (xs : List String) :
    pyJoin sep (.list (xs.map PyVal.str)) = .ok (String.intercalate sep xs) := by
  simp [pyJoin]

theorem runTurn_modelInputs (llmResult : Except String String)
    (db : List Session) (tid msg : String) (cp : PyVal) (inputs : List Msg) :
    (runTurn llmResult db tid msg cp inputs).modelInputs = some inputs := by
  unfold runTurn
  split <;> rfl

theorem runTurn_db (llmResult : Except String String) (db : List Session)
    (tid msg : String) (cp : PyVal) (inputs : List Msg) :
    (runTurn llmResult db tid msg cp inputs).db =
      appendMessages db tid
        [("Doctor", msg), ("Patient", (bot_response_node llmResult).content)] := by
  unfold runTurn
  split <;> rfl

theorem runTurn_resp_ne_badRequest (llmResult : Except String String)
    (db : List Session) (tid msg : String) (cp : PyVal) (inputs : List Msg) :
    (runTurn llmResult db tid msg cp inputs).resp ≠ ChatResp.badRequest := by
  unfold runTurn
  split <;> simp

/-- A `/chat` request with a falsy `user_id`, `thread_id` or `message`
answers 400 before touching the store. -/
theorem chat_invalid (loads : String → Except String PyVal)
    (invokeResult llmResult : Except String String) (now : Nat)
    (db : List Session) (req : ChatReq)
    (hb : (truthy req.user_id && truthy req.thread_id && truthy req.message) = false) :
    chat loads invokeResult llmResult now db req = ⟨.badRequest, db, Option.none⟩ := by
  unfold chat
  simp [hb]

/-- A `/chat` request that passes validation never answers 400. -/
theorem chat_valid_resp_ne (loads : String → Except String PyVal)
    (invokeResult llmResult : Except String String) (now : Nat)
    (db : List Session) (req : ChatReq)
    (hb : (truthy req.user_id && truthy req.thread_id && truthy req.message) = true) :
    (chat loads invokeResult llmResult now db req).resp ≠ ChatResp.badRequest := by
  unfold chat
  rw [hb]
  simp only [if_true]
  split
  · apply runTurn_resp_ne_badRequest
  · split
    · simp
    · split
      · simp
      · apply runTurn_resp_ne_badRequest

theorem collectOwned_eq_filter_map (uid : String) (l : List Session) :
    collectOwned uid l =
      (l.filter (fun s => s.user_id = uid)).map
        (fun s => ⟨s.thread_id, s.patient_name, s.disease⟩) := by
  induction l with
  | nil => rfl
  | cons s rest ih =>
      by_cases h : s.user_id = uid
      · simp [collectOwned, List.filter, h, ih]
      · simp [collectOwned, List.filter, h, ih]

/-- Unfolding of `runTurn` when the display fields resolve. -/
theorem runTurn_display_ok (llmResult : Except String String)
    (db : List Session) (tid msg : String) (cp : PyVal) (inputs : List Msg)
    (n a sx : PyVal)
    (hn : pyIndex cp "name" = .ok n) (ha : pyIndex cp "age" = .ok a)
    (hs : pyIndex cp "sex" = .ok sx) :
    runTurn llmResult db tid msg cp inputs =
      ⟨.ok (bot_response_node llmResult).content n a sx,
       appendMessages db tid
         [("Doctor", msg), ("Patient", (bot_response_node llmResult).content)],
       some inputs⟩ := by
  unfold runTurn
  simp [hn, ha, hs]

/-! ### Claims C1, C5, C6: profile generation -/

/-- When extraction succeeds and `visible_symptoms` is not a single string,
`create_patient_profile` returns the decoded object unchanged (shared
passthrough lemma). -/
theorem create_profile_passthrough (loads : String → Except String PyVal)
    (resp : String) (p v : PyVal)
    (h : clean_json_output loads resp = .ok p)
    (hv : pyGet p "visible_symptoms" = .ok v) (hns : ∀ s, v ≠ .str s) :
    create_patient_profile loads (.ok resp) = p := by
  have hattempt : profile_attempt loads (.ok resp) = .ok p := by
    simp only [profile_attempt, except_bind_ok, h, hv]
    cases v with
    | str s => exact absurd rfl (hns s)
    | none => rfl
    | bool b => rfl
    | int n => rfl
    | list xs => rfl
    | dict xs => rfl
  simp [create_patient_profile, hattempt]

/-- C1 (counterexample): on a model response with no curly bracket at all,
`create_patient_profile` raises nothing but returns the empty dict produced
by the extraction step, not the hardcoded default case. -/
theorem C1_counterexample :
    create_patient_profile loadsFail (.ok "no json here at all") = .dict []
    ∧ PyVal.dict [] ≠ default_profile :=
  ⟨rfl, by simp [default_profile]⟩

/-- C1 (amended): `create_patient_profile` never raises to its caller; it
returns the hardcoded default case exactly when the model invocation or the
JSON decoding raises an exception; when the extraction yields an object it
returns that object after the single-string symptom normalization, with no
validation of required fields (an object missing `name`, `disease` or
`treatment` is returned as is). -/
theorem C1_main (loads : String → Except String PyVal) :
    (∀ e, create_patient_profile loads (.error e) = default_profile)
    ∧ (∀ resp e, clean_json_output loads resp = .error e →
        create_patient_profile loads (.ok resp) = default_profile)
    ∧ (∀ resp p v, clean_json_output loads resp = .ok p →
        pyGet p "visible_symptoms" = .ok v → (∀ s, v ≠ .str s) →
        create_patient_profile loads (.ok resp) = p) := by
  refine ⟨fun e => rfl, fun resp e h => ?_, fun resp p v h hv hns => ?_⟩
  · simp [create_patient_profile, profile_attempt, h]
  · exact create_profile_passthrough loads resp p v h hv hns

/-- C1 (witness): a failing model invocation yields the default case. -/
theorem C1_witness :
    create_patient_profile loadsFail (.error "boom") = default_profile :=
  (C1_main loadsFail).1 "boom"

/-- C5 (counterexample): on an input whose cleaned text has no opening
bracket, the extraction is not treated as a failure: it returns the empty
dict, which `create_patient_profile` passes along as the produced patient
case (instead of failing over to the default case). -/
theorem C5_counterexample :
    clean_json_output loadsFail "plain text reply" = .ok (.dict [])
    ∧ create_patient_profile loadsFail (.ok "plain text reply") = .dict []
    ∧ PyVal.dict [] ≠ default_profile :=
  ⟨rfl, rfl, by simp [default_profile]⟩

/-- C5 (amended): after stripping markdown code fences, `clean_json_output`
decodes exactly the substring from the first opening to the last closing
curly bracket of the cleaned text; when the opening bracket is present but
the closing one is absent, the empty slice is decoded (which `json.loads`
rejects, an exception treated as a failure upstream); when the opening
bracket is absent, the extraction does NOT fail: it returns the empty
object, which flows onward as the produced case. -/
theorem C5_main (loads : String → Except String PyVal) (text : String) :
    (∀ i j : Nat, find_char (cleanedText text) obrace = (i : Int) →
       rfind_char (cleanedText text) cbrace = (j : Int) → i ≤ j →
       ∃ pre mid post, cleanedText text = pre ++ mid ++ post ∧ obrace ∉ pre ∧
         cbrace ∉ post ∧ mid.head? = some obrace ∧ mid.getLast? = some cbrace ∧
         clean_json_output loads text = loads (String.mk mid))
    ∧ (obrace ∉ cleanedText text → clean_json_output loads text = .ok (.dict []))
    ∧ (obrace ∈ cleanedText text → cbrace ∉ cleanedText text →
       clean_json_output loads text = loads "") :=
  ⟨fun _ _ hi hj hij => clean_json_decomposition loads text hi hj hij,
   clean_json_no_open loads text, clean_json_no_close loads text⟩

/-- C5 (witness): on `ab\x7bcd\x7def` the decoded substring is the
bracket-delimited middle segment. -/
theorem C5_witness :
    ∃ pre mid post,
      cleanedText "ab\x7bcd\x7def" = pre ++ mid ++ post ∧ obrace ∉ pre ∧
      cbrace ∉ post ∧ mid.head? = some obrace ∧ mid.getLast? = some cbrace ∧
      clean_json_output loadsFail "ab\x7bcd\x7def" = loadsFail (String.mk mid) :=
  (C5_main loadsFail "ab\x7bcd\x7def").1 2 5 rfl rfl (by omega)

/-- C6 (counterexample): a successfully parsed output whose
`visible_symptoms` is the number 42 is stored unchanged, so the resulting
`visibleSymptoms` is not a sequence type. -/
theorem C6_counterexample :
    create_patient_profile loadsNum (.ok "\x7b\"visible_symptoms\": 42\x7d")
        = .dict [("visible_symptoms", .int 42)]
    ∧ (∀ xs, PyVal.int 42 ≠ PyVal.list xs) :=
  ⟨rfl, fun _ h => nomatch h⟩

/-- C6 (amended): when the parsed generation output has a single-string
`visible_symptoms`, the stored value is the one-element list containing
that string; every other `visible_symptoms` value (including non-sequence
values such as numbers) is stored unchanged, so the resulting field is not
always a sequence type. -/
theorem C6_main (loads : String → Except String PyVal) (resp : String)
    (p : PyVal) :
    (∀ s, clean_json_output loads resp = .ok p →
       pyGet p "visible_symptoms" = .ok (.str s) →
       pyGet (create_patient_profile loads (.ok resp)) "visible_symptoms"
         = .ok (.list [.str s]))
    ∧ (∀ v, clean_json_output loads resp = .ok p →
       pyGet p "visible_symptoms" = .ok v → (∀ s, v ≠ .str s) →
       pyGet (create_patient_profile loads (.ok resp)) "visible_symptoms"
         = .ok v) := by
  constructor
  · intro s h hv
    obtain ⟨xs, rfl⟩ : ∃ xs, p = .dict xs := by
      cases p with
      | dict xs => exact ⟨xs, rfl⟩
      | none => simp [pyGet, pyGetD] at hv
      | bool b => simp [pyGet, pyGetD] at hv
      | int n => simp [pyGet, pyGetD] at hv
      | str t => simp [pyGet, pyGetD] at hv
      | list l => simp [pyGet, pyGetD] at hv
    have hattempt : profile_attempt loads (.ok resp)
        = .ok (.dict (setA xs "visible_symptoms" (.list [.str s]))) := by
      simp [profile_attempt, h, hv, pySetItem]
    simp [create_patient_profile, hattempt, pyGet, pyGetD, lookupA_setA_self]
  · intro v h hv hns
    have hcreate : create_patient_profile loads (.ok resp) = p :=
      create_profile_passthrough loads resp p v h hv hns
    rw [hcreate]
    exact hv

/-- C6 (witness): a single-string `visible_symptoms` is wrapped into a
one-element list. -/
theorem C6_witness :
    pyGet (create_patient_profile loadsSingleSym
        (.ok "\x7b\"visible_symptoms\": \"Cough\"\x7d")) "visible_symptoms"
      = .ok (.list [.str "Cough"]) :=
  (C6_main loadsSingleSym "\x7b\"visible_symptoms\": \"Cough\"\x7d"
      (.dict [("visible_symptoms", .str "Cough")])).1 "Cough" rfl rfl

/-! ### Claim C7: persona rendering -/

/-- C7 (confirmed): on every well-formed `PatientCase` (its
`visible_symptoms` nonempty, as the data model requires),
`build_system_prompt` succeeds and returns a string; a case with no
`pain_description` renders exactly as the same case with the neutral
default `"bad"`. -/
theorem C7_main (c : PatientCase) (h : c.visible_symptoms ≠ []) :
    (∃ s, build_system_prompt c.toPy = .ok s)
    ∧ build_system_prompt { c with pain_description := Option.none }.toPy
        = build_system_prompt { c with pain_description := some "bad" }.toPy := by
  obtain ⟨v0, vrest, hv⟩ : ∃ v0 vrest, c.visible_symptoms = v0 :: vrest := by
    cases hcv : c.visible_symptoms with
    | nil => exact absurd hcv h
    | cons a l => exact ⟨a, l, rfl⟩
  constructor
  · cases hp : c.pain_description with
    | none =>
        simp [build_system_prompt, PatientCase.toPy, hp, hv, pyIndex, lookupA,
          pyGetD, pyItem0, pySlice1]
    | some d =>
        simp [build_system_prompt, PatientCase.toPy, hp, hv, pyIndex, lookupA,
          pyGetD, pyItem0, pySlice1]
  · simp [build_system_prompt, PatientCase.toPy, hv, pyIndex, lookupA,
      pyGetD, pyItem0, pySlice1]

/-- C7 (witness): a concrete case without a pain description renders, and
renders like the same case with `"bad"`. -/
theorem C7_witness :
    (∃ s, build_system_prompt
        (PatientCase.toPy ⟨"Alex", 30, "Male", "Migraine", ["Headache"],
          "Nausea", Option.none, ["Triptans"]⟩) = .ok s)
    ∧ build_system_prompt
        (PatientCase.toPy ⟨"Alex", 30, "Male", "Migraine", ["Headache"],
          "Nausea", Option.none, ["Triptans"]⟩)
      = build_system_prompt
          (PatientCase.toPy ⟨"Alex", 30, "Male", "Migraine", ["Headache"],
            "Nausea", some "bad", ["Triptans"]⟩) :=
  C7_main ⟨"Alex", 30, "Male", "Migraine", ["Headache"], "Nausea",
    Option.none, ["Triptans"]⟩ (by simp)

/-! ### Claims C2, C3, C4: chat turns -/

/-- C2 (confirmed): a first `/chat` call on a fresh thread creates exactly
one session and passes exactly the persona instructions followed by the
doctor utterance to the agent; a call on an existing thread creates no
session and passes exactly the new utterance. -/
theorem C2_main (loads : String → Except String PyVal)
    (invokeResult llmResult : Except String String) (now : Nat)
    (db : List Session) (uidS tidS msgS : String)
    (hu : uidS ≠ "") (ht : tidS ≠ "") (hm : msgS ≠ "") :
    (∀ nv dv instr,
       find_session db tidS = Option.none →
       pyIndex (create_patient_profile loads invokeResult) "name" = .ok nv →
       pyIndex (create_patient_profile loads invokeResult) "disease" = .ok dv →
       build_system_prompt (create_patient_profile loads invokeResult) = .ok instr →
       countTid db tidS = 0
       ∧ countTid (chat loads invokeResult llmResult now db
           ⟨some uidS, some tidS, some msgS⟩).db tidS = 1
       ∧ (chat loads invokeResult llmResult now db
           ⟨some uidS, some tidS, some msgS⟩).modelInputs
           = some [Msg.system instr, Msg.human msgS])
    ∧ (∀ s, find_session db tidS = some s →
       countTid (chat loads invokeResult llmResult now db
           ⟨some uidS, some tidS, some msgS⟩).db tidS = countTid db tidS
       ∧ (chat loads invokeResult llmResult now db
           ⟨some uidS, some tidS, some msgS⟩).modelInputs
           = some [Msg.human msgS]) := by
  constructor
  · intro nv dv instr hfs hn hd hb
    rw [chat_fresh loads invokeResult llmResult now db uidS tidS msgS nv dv
        instr hu ht hm hfs hn hd hb]
    refine ⟨(find_session_none_iff db tidS).mp hfs, ?_,
      runTurn_modelInputs _ _ _ _ _ _⟩
    rw [runTurn_db, appendMessages_countTid, countTid_append,
      (find_session_none_iff db tidS).mp hfs, countTid_singleton_self _ _ rfl]
  · intro s hfs
    rw [chat_existing loads invokeResult llmResult now db uidS tidS msgS s
        hu ht hm hfs]
    exact ⟨by rw [runTurn_db, appendMessages_countTid],
      runTurn_modelInputs _ _ _ _ _ _⟩

/-- C2 (witness): concrete first turn on an empty store. -/
theorem C2_witness :
    ∃ instr,
      countTid ([] : List Session) "t2" = 0
      ∧ countTid (chat loadsFail (.error "gen") (.ok "reply") 0 []
          ⟨some "doc1", some "t2", some "hi"⟩).db "t2" = 1
      ∧ (chat loadsFail (.error "gen") (.ok "reply") 0 []
          ⟨some "doc1", some "t2", some "hi"⟩).modelInputs
          = some [Msg.system instr, Msg.human "hi"] := by
  obtain ⟨instr, hinstr⟩ : ∃ t, build_system_prompt
      (create_patient_profile loadsFail (.error "gen")) = .ok t := ⟨_, rfl⟩
  obtain ⟨h0, h1, h2⟩ := (C2_main loadsFail (.error "gen") (.ok "reply") 0 []
      "doc1" "t2" "hi" (by decide) (by decide) (by decide)).1 _ _ instr
      rfl rfl rfl hinstr
  exact ⟨instr, h0, h1, h2⟩

/-- C3 (counterexample): a request carrying `thread_id` and `message` but
no `user_id` is still answered 400, so the absence of `user_id` alone does
cause a 400. -/
theorem C3_counterexample :
    (⟨Option.none, some "t1", some "hello"⟩ : ChatReq).thread_id = some "t1"
    ∧ (⟨Option.none, some "t1", some "hello"⟩ : ChatReq).message = some "hello"
    ∧ (chat loadsFail (.error "g") (.ok "r") 0 []
        ⟨Option.none, some "t1", some "hello"⟩).resp = ChatResp.badRequest :=
  ⟨rfl, rfl, rfl⟩

/-- C3 (amended): `/chat` answers 400 exactly when `user_id`, `thread_id`
or `message` is missing or empty (all three are required), and in the 400
case the store is untouched and the model is never invoked. -/
theorem C3_main (loads : String → Except String PyVal)
    (invokeResult llmResult : Except String String) (now : Nat)
    (db : List Session) (req : ChatReq) :
    ((chat loads invokeResult llmResult now db req).resp = ChatResp.badRequest ↔
       (truthy req.user_id && truthy req.thread_id && truthy req.message) = false)
    ∧ ((chat loads invokeResult llmResult now db req).resp = ChatResp.badRequest →
       (chat loads invokeResult llmResult now db req).db = db
       ∧ (chat loads invokeResult llmResult now db req).modelInputs
         = Option.none) := by
  constructor
  · constructor
    · intro hresp
      cases hb : (truthy req.user_id && truthy req.thread_id && truthy req.message) with
      | false => rfl
      | true =>
          exact absurd hresp
            (chat_valid_resp_ne loads invokeResult llmResult now db req hb)
    · intro hb
      rw [chat_invalid loads invokeResult llmResult now db req hb]
  · intro hresp
    cases hb : (truthy req.user_id && truthy req.thread_id && truthy req.message) with
    | false =>
        rw [chat_invalid loads invokeResult llmResult now db req hb]
        exact ⟨rfl, rfl⟩
    | true =>
        exact absurd hresp
          (chat_valid_resp_ne loads invokeResult llmResult now db req hb)

/-- C3 (witness): a 400 case (empty `user_id`) leaves the store untouched
and never invokes the model. -/
theorem C3_witness :
    (chat loadsFail (.error "g") (.ok "r") 0 []
        ⟨some "", some "t1", some "hi"⟩).db = ([] : List Session)
    ∧ (chat loadsFail (.error "g") (.ok "r") 0 []
        ⟨some "", some "t1", some "hi"⟩).modelInputs = Option.none :=
  (C3_main loadsFail (.error "g") (.ok "r") 0 []
    ⟨some "", some "t1", some "hi"⟩).2 rfl

/-- C4 (confirmed): when the conversational model invocation fails, the
turn still completes with the literal reply `"..."` and the transcript of
the session still gains the doctor utterance followed by the patient reply,
both on an existing session and on a freshly created one. -/
theorem C4_main (loads : String → Except String PyVal)
    (invokeResult : Except String String) (now : Nat) (db : List Session)
    (uidS tidS msgS err : String)
    (hu : uidS ≠ "") (ht : tidS ≠ "") (hm : msgS ≠ "") :
    (∀ s nv av sv, find_session db tidS = some s →
       pyIndex s.patient_data "name" = .ok nv →
       pyIndex s.patient_data "age" = .ok av →
       pyIndex s.patient_data "sex" = .ok sv →
       (chat loads invokeResult (.error err) now db
           ⟨some uidS, some tidS, some msgS⟩).resp = .ok "..." nv av sv
       ∧ find_session (chat loads invokeResult (.error err) now db
           ⟨some uidS, some tidS, some msgS⟩).db tidS
         = some { s with messages :=
             s.messages ++ [("Doctor", msgS), ("Patient", "...")] })
    ∧ (∀ nv dv av sv instr, find_session db tidS = Option.none →
       pyIndex (create_patient_profile loads invokeResult) "name" = .ok nv →
       pyIndex (create_patient_profile loads invokeResult) "disease" = .ok dv →
       build_system_prompt (create_patient_profile loads invokeResult) = .ok instr →
       pyIndex (create_patient_profile loads invokeResult) "age" = .ok av →
       pyIndex (create_patient_profile loads invokeResult) "sex" = .ok sv →
       (chat loads invokeResult (.error err) now db
           ⟨some uidS, some tidS, some msgS⟩).resp = .ok "..." nv av sv
       ∧ find_session (chat loads invokeResult (.error err) now db
           ⟨some uidS, some tidS, some msgS⟩).db tidS
         = some ⟨tidS, uidS, nv, dv, create_patient_profile loads invokeResult,
             [("Doctor", msgS), ("Patient", "...")], now⟩) := by
  constructor
  · intro s nv av sv hfs hn ha hs
    rw [chat_existing loads invokeResult (.error err) now db uidS tidS msgS s
        hu ht hm hfs,
      runTurn_display_ok (.error err) db tidS msgS s.patient_data _ nv av sv
        hn ha hs]
    refine ⟨rfl, ?_⟩
    rw [appendMessages_find_session, hfs]
    rfl
  · intro nv dv av sv instr hfs hn hd hb ha hs
    rw [chat_fresh loads invokeResult (.error err) now db uidS tidS msgS nv dv
        instr hu ht hm hfs hn hd hb,
      runTurn_display_ok (.error err) _ tidS msgS _ _ nv av sv hn ha hs]
    refine ⟨rfl, ?_⟩
    rw [appendMessages_find_session, find_session_append, hfs]
    simp [find_session, bot_response_node, Msg.content]

/-- C4 (witness): a model failure on an existing session with the default
profile yields the reply `"..."` and appends the doctor/patient pair. -/
theorem C4_witness :
    (chat loadsFail (.error "gen") (.error "network down") 3
        [⟨"t3", "doc1", .str "Alex", .str "Migraine", default_profile, [], 0⟩]
        ⟨some "doc1", some "t3", some "any update?"⟩).resp
      = .ok "..." (.str "Alex") (.int 30) (.str "Male")
    ∧ find_session (chat loadsFail (.error "gen") (.error "network down") 3
        [⟨"t3", "doc1", .str "Alex", .str "Migraine", default_profile, [], 0⟩]
        ⟨some "doc1", some "t3", some "any update?"⟩).db "t3"
      = some ⟨"t3", "doc1", .str "Alex", .str "Migraine", default_profile,
          [("Doctor", "any update?"), ("Patient", "...")], 0⟩ :=
  (C4_main loadsFail (.error "gen") 3
      [⟨"t3", "doc1", .str "Alex", .str "Migraine", default_profile, [], 0⟩]
      "doc1" "t3" "any update?" "network down"
      (by decide) (by decide) (by decide)).1
    ⟨"t3", "doc1", .str "Alex", .str "Migraine", default_profile, [], 0⟩
    (.str "Alex") (.int 30) (.str "Male") rfl rfl rfl rfl

/-! ### Claims C9, C10: session creation under concurrency / failure -/

/-- C9 (counterexample): session creation is a non-atomic check-then-insert
(the store lookup and the list append are separated by the blocking profile
generation call).  In the interleaving where both first-turn handlers run
their lookup against the initial store before either insert, both pass the
`not session` check and both append, leaving two stored sessions for the
same thread id. -/
theorem C9_counterexample :
    find_session ([] : List Session) "t1" = Option.none
    ∧ (∃ s1 s2, new_session "t1" "doc1" default_profile 0 = .ok s1
        ∧ new_session "t1" "doc1" default_profile 1 = .ok s2
        ∧ countTid (([] : List Session) ++ [s1] ++ [s2]) "t1" = 2)
    ∧ (2 : Nat) ≠ 1 :=
  ⟨rfl, ⟨_, _, rfl, rfl, rfl⟩, by decide⟩

/-- C9 (amended): nothing in the code makes session creation atomic per
thread id; creation is guarded only by the preceding lookup.  Consequently
two first-turns for the same fresh thread id yield exactly one stored
session only when they run sequentially (the second lookup then sees the
first insert); an interleaved pair can store two sessions. -/
theorem C9_main (loads : String → Except String PyVal)
    (invokeResult llmResult llmResult2 : Except String String)
    (now now2 : Nat) (db : List Session) (uidS tidS msgS msgS2 : String)
    (hu : uidS ≠ "") (ht : tidS ≠ "") (hm : msgS ≠ "") (hm2 : msgS2 ≠ "")
    (nv dv : PyVal) (instr : String)
    (hfs : find_session db tidS = Option.none)
    (hn : pyIndex (create_patient_profile loads invokeResult) "name" = .ok nv)
    (hd : pyIndex (create_patient_profile loads invokeResult) "disease" = .ok dv)
    (hb : build_system_prompt (create_patient_profile loads invokeResult) = .ok instr) :
    countTid (chat loads invokeResult llmResult2 now2
        (chat loads invokeResult llmResult now db
          ⟨some uidS, some tidS, some msgS⟩).db
        ⟨some uidS, some tidS, some msgS2⟩).db tidS = 1 := by
  have h1 : (chat loads invokeResult llmResult now db
      ⟨some uidS, some tidS, some msgS⟩).db
      = appendMessages
          (db ++ [⟨tidS, uidS, nv, dv, create_patient_profile loads invokeResult,
            [], now⟩]) tidS
          [("Doctor", msgS), ("Patient", (bot_response_node llmResult).content)] := by
    rw [chat_fresh loads invokeResult llmResult now db uidS tidS msgS nv dv
        instr hu ht hm hfs hn hd hb, runTurn_db]
  obtain ⟨s1, hs1⟩ : ∃ s1, find_session (chat loads invokeResult llmResult now db
      ⟨some uidS, some tidS, some msgS⟩).db tidS = some s1 := by
    refine ⟨⟨tidS, uidS, nv, dv, create_patient_profile loads invokeResult,
      [("Doctor", msgS), ("Patient", (bot_response_node llmResult).content)],
      now⟩, ?_⟩
    rw [h1, appendMessages_find_session, find_session_append, hfs]
    simp [find_session]
  rw [chat_existing loads invokeResult llmResult2 now2 _ uidS tidS msgS2 s1
      hu ht hm2 hs1, runTurn_db, appendMessages_countTid, h1,
    appendMessages_countTid, countTid_append,
    (find_session_none_iff db tidS).mp hfs, countTid_singleton_self _ _ rfl]

/-- C9 (witness): two sequential first-turns on a fresh thread leave
exactly one stored session. -/
theorem C9_witness :
    countTid (chat loadsFail (.error "gen") (.ok "r2") 1
        (chat loadsFail (.error "gen") (.ok "r1") 0 []
          ⟨some "doc1", some "t7", some "hello"⟩).db
        ⟨some "doc1", some "t7", some "again"⟩).db "t7" = 1 := by
  obtain ⟨instr, hinstr⟩ : ∃ t, build_system_prompt
      (create_patient_profile loadsFail (.error "gen")) = .ok t := ⟨_, rfl⟩
  exact C9_main loadsFail (.error "gen") (.ok "r1") (.ok "r2") 0 1 []
    "doc1" "t7" "hello" "again" (by decide) (by decide) (by decide) (by decide)
    _ _ instr rfl rfl rfl hinstr

/-- C10 (confirmed): when a `/chat` request creates and stores a session
and the rest of the turn then raises (for example the stored profile lacks
the `age` or `sex` field, which makes the persona rendering raise a
KeyError), the endpoint answers 500 while the freshly inserted session
stays in the store: creation is not rolled back. -/
theorem C10_main (loads : String → Except String PyVal)
    (invokeResult llmResult : Except String String) (now : Nat)
    (db : List Session) (uidS tidS msgS : String)
    (hu : uidS ≠ "") (ht : tidS ≠ "") (hm : msgS ≠ "")
    (nv dv : PyVal) (e : String)
    (hfs : find_session db tidS = Option.none)
    (hn : pyIndex (create_patient_profile loads invokeResult) "name" = .ok nv)
    (hd : pyIndex (create_patient_profile loads invokeResult) "disease" = .ok dv)
    (hb : build_system_prompt (create_patient_profile loads invokeResult) = .error e) :
    (chat loads invokeResult llmResult now db
        ⟨some uidS, some tidS, some msgS⟩).resp = .unhandled e
    ∧ statusCode (chat loads invokeResult llmResult now db
        ⟨some uidS, some tidS, some msgS⟩).resp = 500
    ∧ countTid (chat loads invokeResult llmResult now db
        ⟨some uidS, some tidS, some msgS⟩).db tidS = 1 := by
  rw [chat_fresh_render_fail loads invokeResult llmResult now db uidS tidS msgS
      nv dv e hu ht hm hfs hn hd hb]
  refine ⟨rfl, rfl, ?_⟩
  rw [countTid_append, (find_session_none_iff db tidS).mp hfs,
    countTid_singleton_self _ _ rfl]

/-- C10 (witness): a generated profile with `name` and `disease` but no
`age` is inserted, then the rendering KeyError escapes: 500 with the
session still stored. -/
theorem C10_witness :
    (chat loadsNoAge (.ok "\x7b\"name\": \"Bob\", \"disease\": \"Flu\"\x7d")
        (.ok "r") 5 [] ⟨some "doc1", some "t9", some "m"⟩).resp
      = .unhandled "KeyError: age"
    ∧ statusCode (chat loadsNoAge
        (.ok "\x7b\"name\": \"Bob\", \"disease\": \"Flu\"\x7d")
        (.ok "r") 5 [] ⟨some "doc1", some "t9", some "m"⟩).resp = 500
    ∧ countTid (chat loadsNoAge
        (.ok "\x7b\"name\": \"Bob\", \"disease\": \"Flu\"\x7d")
        (.ok "r") 5 [] ⟨some "doc1", some "t9", some "m"⟩).db "t9" = 1 :=
  C10_main loadsNoAge
    (.ok "\x7b\"name\": \"Bob\", \"disease\": \"Flu\"\x7d") (.ok "r") 5 []
    "doc1" "t9" "m" (by decide) (by decide) (by decide) _ _ _ rfl rfl rfl rfl

/-! ### Claim C8: session listing -/

/-- C8 (confirmed): `get_sessions` mutates nothing, returns exactly the
sessions owned by the requested user, and (whenever the store list is in
creation order, i.e. its timestamps are nondecreasing) lists them
newest-first. -/
theorem C8_main (db : List Session) (uid : String) :
    ((get_sessions db uid).2 = db)
    ∧ (∀ e, e ∈ (get_sessions db uid).1 ↔
        ∃ s, s ∈ db ∧ s.user_id = uid ∧
          e = ⟨s.thread_id, s.patient_name, s.disease⟩)
    ∧ (List.Pairwise (fun a b => a.created_at ≤ b.created_at) db →
        ∃ sel : List Session,
          (get_sessions db uid).1
            = sel.map (fun s => ⟨s.thread_id, s.patient_name, s.disease⟩)
          ∧ (∀ s ∈ sel, s.user_id = uid)
          ∧ List.Pairwise (fun a b => b.created_at ≤ a.created_at) sel) := by
  refine ⟨rfl, ?_, ?_⟩
  · intro e
    simp only [get_sessions, collectOwned_eq_filter_map, List.mem_map,
      List.mem_filter, List.mem_reverse, decide_eq_true_eq]
    constructor
    · rintro ⟨t, ⟨hmem, huse⟩, rfl⟩
      exact ⟨t, hmem, huse, rfl⟩
    · rintro ⟨t, hmem, huse, rfl⟩
      exact ⟨t, ⟨hmem, huse⟩, rfl⟩
  · intro horder
    refine ⟨db.reverse.filter (fun s => s.user_id = uid), ?_, ?_, ?_⟩
    · simp [get_sessions, collectOwned_eq_filter_map]
    · intro t hmem
      have := (List.mem_filter.mp hmem).2
      exact of_decide_eq_true this
    · have hrev : List.Pairwise (fun a b => b.created_at ≤ a.created_at)
          db.reverse := by
        rw [List.pairwise_reverse]
        exact horder
      exact hrev.sublist (List.filter_sublist _)

/-- C8 (witness): on a concrete two-owner store the listing is exactly the
owner-filtered, newest-first projection. -/
theorem C8_witness :
    ∃ sel : List Session,
      (get_sessions
          [⟨"t1", "doc1", .str "A", .str "D1", default_profile, [], 0⟩,
           ⟨"t2", "doc2", .str "B", .str "D2", default_profile, [], 1⟩,
           ⟨"t3", "doc1", .str "C", .str "D3", default_profile, [], 2⟩]
          "doc1").1
        = sel.map (fun s => ⟨s.thread_id, s.patient_name, s.disease⟩)
      ∧ (∀ s ∈ sel, s.user_id = "doc1")
      ∧ List.Pairwise (fun a b => b.created_at ≤ a.created_at) sel :=
  (C8_main
      [⟨"t1", "doc1", .str "A", .str "D1", default_profile, [], 0⟩,
       ⟨"t2", "doc2", .str "B", .str "D2", default_profile, [], 1⟩,
       ⟨"t3", "doc1", .str "C", .str "D3", default_profile, [], 2⟩]
      "doc1").2.2 (by simp [List.pairwise_cons])

end MedSim
